import Mathlib

/-!
Shallow embedding of `indexdb-helper-ts` (class `DbAction` in
`src/src/DbAction.ts`, its compiled counterpart `src/dist/DbAction.js`, and
`src/src/constants.ts`).

The class wraps browser IndexedDB.  We embed:

* the configuration state of a `DbAction` instance (action tag, database
  handle, store name, index hint, durability, write payload, delete key);
* the synchronous phase of each `execute*` method: validation, opening of the
  transaction via `resolveStoreOrIndex`, and the single native request it
  issues (or the error thrown before any request);
* the promise-settlement logic of each `execute*` method as a function from
  the outcome of the native request and the outcome of the owning transaction
  to the promise's settlement.  In IndexedDB the request's success/error event
  fires before the transaction's terminal (complete/error/abort) event, and a
  promise settles at the first `resolve`/`reject` call; the functions below
  encode exactly that order.

The TypeScript source (`src/src/DbAction.ts`) and the compiled JavaScript
(`src/dist/DbAction.js`) disagree on the settlement logic: the `.ts` variant
settles on the request's own events alone, the `.js` variant gates settlement
on the transaction's terminal event.  Both variants are embedded (suffixes
`Src` and `Dist`).  The synchronous phase is embedded from the `.ts` source.
-/

namespace IndexdbHelper

/-- Primitive JS values as far as the wrapper inspects them.  The wrapper only
ever reads a payload's top-level field named by the store's key path and
compares it with `undefined`; every other value is opaque, represented by
`other` with an identifier. -/
inductive Prim where
  | undef
  | str (s : String)
  | num (n : Int)
  | other (id : Nat)
deriving DecidableEq, Repr

/-- A write payload (`TWrite` document): a JS object, modelled as its
top-level fields. -/
structure Doc where
  fields : List (String × Prim)
deriving DecidableEq, Repr

/-- Valid IndexedDB keys, as far as the claims need them. -/
inductive IDBKey where
  | num (n : Int)
  | str (s : String)
deriving DecidableEq, Repr

/-- Argument of `setDeleteKey`: a single key or a key range
(`IDBValidKey | IDBKeyRange`).  The wrapper never inspects it beyond the
`undefined` check, so the range bounds stay abstract. -/
inductive DeleteKey where
  | single (k : IDBKey)
  | range (lo hi : IDBKey)
deriving DecidableEq, Repr

/-- `IDBObjectStore.keyPath` when it is not `null`: a single field name, or a
composite (array) key path. -/
inductive StoreKeyPath where
  | single (s : String)
  | composite (ss : List String)
deriving DecidableEq, Repr

/-- The state of one object store of the database: its key path (`none`
models `null`), the names of its secondary indexes, and its keyed records. -/
structure ObjectStore where
  keyPath : Option StoreKeyPath
  indexNames : List String
  records : List (IDBKey × Doc)
deriving DecidableEq, Repr

/-- JS errors thrown or used for rejection by the wrapper: `TypeError` from
the constructor and the configuration setters, `Error` elsewhere. -/
inductive JsError where
  | typeError (msg : String)
  | error (msg : String)
deriving DecidableEq, Repr

/-- The `databaseInstance` constructor argument: either an `IDBDatabase`
instance (identified by an opaque reference) or any other value, for which
`databaseInstance instanceof IDBDatabase` is false. -/
inductive DbHandleArg where
  | idb (ref : Nat)
  | notIdb
deriving DecidableEq, Repr

/-- A JS argument that the code checks with `typeof x !== "string"`: either a
string or some non-string value. -/
inductive NameArg where
  | str (s : String)
  | nonString
deriving DecidableEq, Repr

/-- Configuration state of a `DbAction` instance.  `action` is the runtime
string tag (the class field is typed `DatabaseActionType` but `execute`
dispatches on it as a string with a defensive default branch).
`databaseInstance` is the opaque reference of the handle fixed at
construction. -/
structure DbAction where
  action : String
  databaseInstance : Nat
  storeName : String
  hintIndex : Option String := none
  durability : String := "relaxed"
  updateDoc : Option Doc := none
  deleteDoc : Option DeleteKey := none
deriving DecidableEq, Repr

/-- The state the constructor establishes after its checks pass: the three
construction arguments stored, `durability` defaulted to `"relaxed"`, every
optional field unset. -/
def DbAction.init (action : String) (dbRef : Nat) (storeName : String) : DbAction :=
  { action := action, databaseInstance := dbRef, storeName := storeName }

/-- The constructor `DbAction(action, databaseInstance, storeName)`:
synchronously throws `TypeError` when `databaseInstance` is not an
`IDBDatabase` instance or `storeName` is not a non-empty string; otherwise
returns the initial instance state. -/
def construct (action : String) (db : DbHandleArg) (storeName : NameArg) :
    Except JsError DbAction :=
  match db with
  | .notIdb => .error (.typeError "databaseInstance must be a valid IDBDatabase instance")
  | .idb ref =>
    match storeName with
    | .nonString => .error (.typeError "storeName must be a non-empty string")
    | .str s =>
      if s.length = 0 then .error (.typeError "storeName must be a non-empty string")
      else .ok (DbAction.init action ref s)

/-- `configureIndexHint(indexName)`: throws `TypeError` on a non-string or
empty name, otherwise sets `hintIndex` and returns `this` (modelled as the
updated state). -/
def configureIndexHint (a : DbAction) (indexName : NameArg) : Except JsError DbAction :=
  match indexName with
  | .nonString => .error (.typeError "indexName must be a non-empty string")
  | .str s =>
    if s.length = 0 then .error (.typeError "indexName must be a non-empty string")
    else .ok { a with hintIndex := some s }

/-- `configureDurability(durability)`: throws `TypeError` unless the value is
`"strict"` or `"relaxed"`, otherwise sets `durability` and returns `this`. -/
def configureDurability (a : DbAction) (d : String) : Except JsError DbAction :=
  if d ≠ "strict" ∧ d ≠ "relaxed" then
    .error (.typeError "durability must be either \"strict\" or \"relaxed\"")
  else .ok { a with durability := d }

/-- `setDocumentData(updateDoc)`: unconditionally sets the payload and
returns `this`. -/
def setDocumentData (a : DbAction) (doc : Doc) : DbAction :=
  { a with updateDoc := some doc }

/-- `setDeleteKey(deleteKey)`: unconditionally sets the delete key and
returns `this`. -/
def setDeleteKey (a : DbAction) (k : DeleteKey) : DbAction :=
  { a with deleteDoc := some k }

/-- The transaction opened by `resolveStoreOrIndex`: scoped to the single
store, with the given mode and the instance's configured durability passed as
the transaction option. -/
structure TxnSpec where
  stores : List String
  mode : String
  durability : String
deriving DecidableEq, Repr

/-- The source object a native request is issued on: the primary object store
or a named secondary index on it. -/
inductive Source where
  | store
  | idx (name : String)
deriving DecidableEq, Repr

/-- `resolveStoreOrIndex(transactionMode, allowIndex)`: opens a transaction
on `[this.storeName]` with the configured durability, takes the object store,
and returns the index named by `hintIndex` instead exactly when `allowIndex`
holds, `this.hintIndex` is truthy (set and non-empty), and
`objectStore.indexNames.contains(this.hintIndex)`. -/
def resolveStoreOrIndex (a : DbAction) (st : ObjectStore) (mode : String)
    (allowIndex : Bool) : TxnSpec × Source :=
  let transaction : TxnSpec := ⟨[a.storeName], mode, a.durability⟩
  match a.hintIndex with
  | some h =>
    if allowIndex && h.length != 0 && st.indexNames.contains h then (transaction, .idx h)
    else (transaction, .store)
  | none => (transaction, .store)

/-- The one native request an `execute*` method issues. -/
inductive NativeReq where
  | getAll
  | add (doc : Doc)
  | put (doc : Doc)
  | del (k : DeleteKey)
  | clear
deriving DecidableEq, Repr

/-- Outcome of the synchronous phase of an `execute*` method: either an error
thrown before any native request was issued (recording how many transactions
had been opened by then), or a single native request issued on a source bound
to a transaction. -/
inductive SyncOutcome where
  | threw (txnsOpened : Nat) (e : JsError)
  | issued (txn : TxnSpec) (src : Source) (req : NativeReq)
deriving DecidableEq, Repr

/-- Whether the synchronous phase threw (so no native request was issued). -/
def SyncOutcome.isThrew : SyncOutcome → Bool
  | .threw _ _ => true
  | .issued _ _ _ => false

/-- Synchronous phase of `executeRead` (`src/src/DbAction.ts`): resolve with
`("readonly", allowIndex := true)` and issue `getAll()` on the result. -/
def executeReadSync (a : DbAction) (st : ObjectStore) : SyncOutcome :=
  let rs := resolveStoreOrIndex a st "readonly" true
  .issued rs.1 rs.2 .getAll

/-- Synchronous phase of `executeWrite` (`src/src/DbAction.ts`): resolve with
`("readwrite", allowIndex := false)` first (so the transaction is opened),
then throw if no payload was set, else issue `add(updateDoc)`. -/
def executeWriteSync (a : DbAction) (st : ObjectStore) : SyncOutcome :=
  let rs := resolveStoreOrIndex a st "readwrite" false
  match a.updateDoc with
  | none => .threw 1 (.error "Document data is required for write operations")
  | some doc => .issued rs.1 rs.2 (.add doc)

/-- The check `keyPath in updateDocObj && updateDocObj[keyPath] !== undefined`
from `executeUpdate`: the payload has the key-path field and it is set. -/
def hasKeyField (doc : Doc) (kp : String) : Bool :=
  match doc.fields.find? (fun p => p.1 = kp) with
  | some p => p.2 ≠ Prim.undef
  | none => false

/-- Synchronous phase of `executeUpdate` (`src/src/DbAction.ts`): throw if no
payload was set (before opening the transaction); then resolve with
`("readwrite", allowIndex := false)`; throw if the store's key path is `null`
or not a single string, or if the payload lacks the key-path field or has it
`undefined`; else issue `put(updateDoc)`. -/
def executeUpdateSync (a : DbAction) (st : ObjectStore) : SyncOutcome :=
  match a.updateDoc with
  | none => .threw 0 (.error "Document data is required for update operations")
  | some doc =>
    let rs := resolveStoreOrIndex a st "readwrite" false
    match st.keyPath with
    | none =>
      .threw 1 (.error "Update operations require a keyPath. Object store must have an inline key.")
    | some (.composite _) =>
      .threw 1 (.error "Update operations require a string keyPath. Array-based keyPaths are not supported.")
    | some (.single kp) =>
      if hasKeyField doc kp then .issued rs.1 rs.2 (.put doc)
      else
        .threw 1 (.error ("Update document must contain the primary key \x27" ++ kp ++
          "\x27. The key is required to identify the record to update."))

/-- Synchronous phase of `executeDelete` (`src/src/DbAction.ts`): throw if no
delete key was set (before opening the transaction); then resolve with
`("readwrite", allowIndex := false)` and issue `delete(deleteDoc)`. -/
def executeDeleteSync (a : DbAction) (st : ObjectStore) : SyncOutcome :=
  match a.deleteDoc with
  | none => .threw 0 (.error "Delete key or key range is required for delete operations")
  | some k =>
    let rs := resolveStoreOrIndex a st "readwrite" false
    .issued rs.1 rs.2 (.del k)

/-- Synchronous phase of `executeClear` (`src/src/DbAction.ts`): resolve with
`("readwrite", allowIndex := false)` and issue `clear()`. -/
def executeClearSync (a : DbAction) (st : ObjectStore) : SyncOutcome :=
  let rs := resolveStoreOrIndex a st "readwrite" false
  .issued rs.1 rs.2 .clear

/-- `Object.values(DB_ACTIONS)` from `src/src/constants.ts`. -/
def DB_ACTIONS_values : List String := ["READ", "WRITE", "UPDATE", "DELETE", "CLEAR"]

/-- The message of the `execute` default branch:
`Unrecognized database action: ${action}. Must be one of:
${Object.values(DB_ACTIONS).join(", ")}`. -/
def unrecognizedActionMsg (v : String) : String :=
  "Unrecognized database action: " ++ v ++ ". Must be one of: " ++
    String.intercalate ", " DB_ACTIONS_values

/-- Synchronous phase of `execute()`: dispatch on the action tag to the five
handlers; any other tag throws the dispatch error before any transaction is
opened. -/
def executeSync (a : DbAction) (st : ObjectStore) : SyncOutcome :=
  if a.action = "READ" then executeReadSync a st
  else if a.action = "WRITE" then executeWriteSync a st
  else if a.action = "UPDATE" then executeUpdateSync a st
  else if a.action = "DELETE" then executeDeleteSync a st
  else if a.action = "CLEAR" then executeClearSync a st
  else .threw 0 (.error (unrecognizedActionMsg a.action))

/-- Outcome of a native request, as delivered by its success/error event.
`failure none` models a request whose `error` attribute is `null`. -/
inductive ReqOutcome (α : Type) where
  | success (result : α)
  | failure (err : Option JsError)
deriving DecidableEq, Repr

/-- Terminal event of the owning transaction.  `transaction.error` may be
`null`, hence the `Option`. -/
inductive TxnOutcome where
  | complete
  | error (e : Option JsError)
  | abort (e : Option JsError)
deriving DecidableEq, Repr

/-- Settlement of the promise returned by an `execute*` method.
`rejected none` models `reject` called with `null`. -/
inductive POutcome (α : Type) where
  | resolved (v : α)
  | rejected (e : Option JsError)
deriving DecidableEq, Repr

/-- Promise settlement of `executeWrite` in `src/src/DbAction.ts`: the only
handlers are `request.onsuccess → resolve()` and `request.onerror →
reject(request.error || fallback)`.  The request event fires before the
transaction's terminal event, so the promise settles on the request outcome
alone and the transaction outcome is never consulted. -/
def writePromiseSrc (req : ReqOutcome Unit) (_txn : TxnOutcome) : POutcome Unit :=
  match req with
  | .success _ => .resolved ()
  | .failure e => .rejected (some (e.getD (.error "Write operation failed with unknown error")))

/-- Promise settlement of `executeWrite` in `src/dist/DbAction.js`:
`request.onerror` rejects with the request error (this event precedes the
transaction's terminal event, so it wins); otherwise `transaction.oncomplete`
resolves and `transaction.onerror`/`onabort` reject with
`transaction.error`. -/
def writePromiseDist (req : ReqOutcome Unit) (txn : TxnOutcome) : POutcome Unit :=
  match req with
  | .failure e => .rejected (some (e.getD (.error "Write operation failed")))
  | .success _ =>
    match txn with
    | .complete => .resolved ()
    | .error e => .rejected e
    | .abort e => .rejected e

/-- Promise settlement of `executeRead` in `src/src/DbAction.ts`:
`request.onsuccess → resolve(request.result)`, `request.onerror →
reject(request.error || fallback)`; no transaction handlers are installed, so
the transaction outcome is never consulted. -/
def readPromiseSrc (req : ReqOutcome (List Doc)) (_txn : TxnOutcome) : POutcome (List Doc) :=
  match req with
  | .success r => .resolved r
  | .failure e => .rejected (some (e.getD (.error "Read operation failed with unknown error")))

/-- Promise settlement of `executeRead` in `src/dist/DbAction.js`:
`request.onsuccess` only buffers `request.result`; `request.onerror` rejects
(and precedes the transaction's terminal event); `transaction.oncomplete`
resolves the buffered result (`getAll`'s result is an array, so after a
successful request the buffer is never `undefined` and the
"completed without result" branch is unreachable); `onerror`/`onabort` reject
with `transaction.error`. -/
def readPromiseDist (req : ReqOutcome (List Doc)) (txn : TxnOutcome) : POutcome (List Doc) :=
  match req with
  | .failure e => .rejected (some (e.getD (.error "Read operation failed with unknown error")))
  | .success r =>
    match txn with
    | .complete => .resolved r
    | .error e => .rejected e
    | .abort e => .rejected e

/-- Coerce a payload field to an IndexedDB key, when it is one. -/
def Prim.toKey : Prim → Option IDBKey
  | .str s => some (.str s)
  | .num n => some (.num n)
  | _ => none

/-- Modelled from the spec: the storage engine's insert-only-if-absent
operation (`IDBObjectStore.add`) for a store with a single-field inline key
path, which is the only configuration the settled claims evaluate it on.  The
engine itself is the browser's IndexedDB and is not part of this repository's
sources.  Extracts the key from the payload at the key path; fails when the
extracted value is not a valid key, or when a record with that key already
exists; otherwise appends the record. -/
def ObjectStore.addRecord (st : ObjectStore) (doc : Doc) : Except JsError ObjectStore :=
  match st.keyPath with
  | some (.single kp) =>
    match ((doc.fields.find? (fun p => p.1 = kp)).map (fun p => p.2)).bind Prim.toKey with
    | some k =>
      if st.records.any (fun r => r.1 = k) then .error (.error "ConstraintError")
      else .ok { st with records := st.records ++ [(k, doc)] }
    | none => .error (.error "DataError")
  | _ => .error (.error "DataError")

/-- Modelled from the spec: the storage engine's fetch-all operation
(`IDBObjectStore.getAll`) — the full result set of the store's records. -/
def ObjectStore.getAllDocs (st : ObjectStore) : List Doc :=
  st.records.map (fun r => r.2)

/-- A WRITE execution through the engine model: the synchronous phase of
`executeWrite` followed, when it issues the `add`, by the engine's insert.
`.ok` is the resulting store state of a WRITE whose request succeeds and
whose transaction completes.  (`executeWriteSync` only ever issues `add`; the
final branch is unreachable.) -/
def runWrite (a : DbAction) (st : ObjectStore) : Except JsError ObjectStore :=
  match executeWriteSync a st with
  | .threw _ e => .error e
  | .issued _ _ (.add doc) => st.addRecord doc
  | .issued _ _ _ => .error (.error "unreachable: executeWrite issues add only")

/-- A READ execution through the engine model: the synchronous phase of
`executeRead` followed, when the resolved source is the primary store, by the
engine's fetch-all.  Secondary-index views are outside the modelled engine;
no settled claim reads through one. -/
def runRead (a : DbAction) (st : ObjectStore) : Except JsError (List Doc) :=
  match executeReadSync a st with
  | .threw _ e => .error e
  | .issued _ .store .getAll => .ok st.getAllDocs
  | .issued _ _ _ => .error (.error "unmodelled: read through a secondary index")

/-- The synchronous outcome with the transaction's durability option erased:
used to state that durability influences nothing but that option. -/
def SyncOutcome.stripDur : SyncOutcome → SyncOutcome
  | .threw n e => .threw n e
  | .issued t s r => .issued ⟨t.stores, t.mode, ""⟩ s r

/-- A concrete store used by witnesses: inline single key path `"id"`, no
indexes, no records (the schema of the repository's own test database). -/
def usersStore : ObjectStore := ⟨some (.single "id"), [], []⟩

/-- A concrete payload used by witnesses: `{ id: "1", name: "Alice" }`. -/
def aliceDoc : Doc := ⟨[("id", .str "1"), ("name", .str "Alice")]⟩

/-- With `allowIndex = false` (all four write-family operations),
`resolveStoreOrIndex` returns the primary store whatever the hint. -/
theorem resolveStoreOrIndex_writeFamily (a : DbAction) (st : ObjectStore) (mode : String) :
    resolveStoreOrIndex a st mode false = (⟨[a.storeName], mode, a.durability⟩, .store) := by
  unfold resolveStoreOrIndex
  cases a.hintIndex <;> simp

/-- Claim C1.  The claim holds of the compiled `src/dist/DbAction.js`
`executeWrite` but not of `src/src/DbAction.ts`: on an execution whose insert
request signals success and whose transaction then aborts (so it never
reaches successful completion), the `.ts` variant has already resolved the
promise at the request's success event, while the `.js` variant rejects with
the transaction's error, which is what the claim (and the spec's declaredly
authoritative transaction-gated contract) requires. -/
theorem writeSrc_resolves_despite_abort :
    writePromiseSrc (.success ()) (.abort (some (.error "AbortError"))) = .resolved ()
    ∧ TxnOutcome.abort (some (.error "AbortError")) ≠ TxnOutcome.complete
    ∧ writePromiseDist (.success ()) (.abort (some (.error "AbortError"))) =
        .rejected (some (.error "AbortError")) := by
  refine ⟨rfl, ?_, rfl⟩
  decide

/-- Claim C2.  The claim holds of the compiled `src/dist/DbAction.js`
`executeRead` but not of `src/src/DbAction.ts`: on an execution whose
`getAll` request succeeds and whose transaction then aborts, the `.ts`
variant resolves with the retrieved result at the request's success event,
ignoring the transaction outcome entirely, while the `.js` variant rejects
with the transaction's error, superseding the already-signalled retrieval, as
the claim requires. -/
theorem readSrc_resolves_despite_abort :
    readPromiseSrc (.success [aliceDoc]) (.abort (some (.error "QuotaExceededError"))) =
        .resolved [aliceDoc]
    ∧ TxnOutcome.abort (some (.error "QuotaExceededError")) ≠ TxnOutcome.complete
    ∧ readPromiseDist (.success [aliceDoc]) (.abort (some (.error "QuotaExceededError"))) =
        .rejected (some (.error "QuotaExceededError")) := by
  refine ⟨rfl, ?_, rfl⟩
  decide

/-- Claim C7: construction succeeds exactly for an `IDBDatabase` instance and
a non-empty string store name; every construction failure is a `TypeError`.
The check is the constructor's own code, run synchronously at construction,
not deferred to `execute`. -/
theorem construct_ok_iff (action : String) (db : DbHandleArg) (name : NameArg) :
    ((∃ r, construct action db name = .ok r) ↔
      ((∃ ref, db = .idb ref) ∧ ∃ s, name = .str s ∧ s ≠ ""))
    ∧ (∀ e, construct action db name = .error e → ∃ m, e = .typeError m) := by
  constructor
  · constructor
    · rintro ⟨r, hr⟩
      cases db with
      | notIdb => simp [construct] at hr
      | idb ref =>
        cases name with
        | nonString => simp [construct] at hr
        | str s =>
          refine ⟨⟨ref, rfl⟩, s, rfl, ?_⟩
          intro hs
          subst hs
          simp [construct] at hr
    · rintro ⟨⟨ref, rfl⟩, s, rfl, hs⟩
      refine ⟨DbAction.init action ref s, ?_⟩
      have hlen : s.length ≠ 0 := fun h => hs (String.ext (List.length_eq_zero.mp h))
      simp [construct, hlen]
  · intro e he
    cases db with
    | notIdb =>
      simp [construct] at he
      exact ⟨_, he.symm⟩
    | idb ref =>
      cases name with
      | nonString =>
        simp [construct] at he
        exact ⟨_, he.symm⟩
      | str s =>
        by_cases hlen : s.length = 0
        · simp [construct, hlen] at he
          exact ⟨_, he.symm⟩
        · simp [construct, hlen] at he

/-- Witness for C7 at a concrete input: a valid handle and the non-empty name
`"users"` construct successfully. -/
theorem construct_ok_iff_witness :
    ∃ r, construct "READ" (.idb 0) (.str "users") = .ok r :=
  (construct_ok_iff "READ" (.idb 0) (.str "users")).1.mpr
    ⟨⟨0, rfl⟩, "users", rfl, by decide⟩

/-- Claim C10: each successful setter call returns the instance changed in
exactly its own field (record update), so in particular the action tag, the
database handle and the store name fixed at construction are untouched, as
are the other three configuration fields.  `setDocumentData` and
`setDeleteKey` never fail; the two validating setters are stated for their
successful outcomes.  (`execute` is embedded as a pure function because its
source performs no field assignment at all.) -/
theorem setters_update_own_field_only (a : DbAction) (s : String) (d : String)
    (doc : Doc) (k : DeleteKey) :
    (∀ r, configureIndexHint a (.str s) = .ok r → r = { a with hintIndex := some s })
    ∧ (∀ r, configureDurability a d = .ok r → r = { a with durability := d })
    ∧ setDocumentData a doc = { a with updateDoc := some doc }
    ∧ setDeleteKey a k = { a with deleteDoc := some k } := by
  refine ⟨?_, ?_, rfl, rfl⟩
  · intro r hr
    by_cases hs : s.length = 0
    · simp [configureIndexHint, hs] at hr
    · simp [configureIndexHint, hs] at hr
      exact hr.symm
  · intro r hr
    by_cases hd : d ≠ "strict" ∧ d ≠ "relaxed"
    · simp [configureDurability, hd] at hr
    · simp [configureDurability, hd] at hr
      exact hr.symm

/-- Witness for C10 at a concrete input: configuring the hint `"byName"` on a
freshly constructed WRITE action succeeds and yields exactly the hint-updated
state. -/
theorem setters_update_own_field_only_witness :
    configureIndexHint (DbAction.init "WRITE" 0 "users") (.str "byName") =
      .ok { DbAction.init "WRITE" 0 "users" with hintIndex := some "byName" }
    ∧ ({ DbAction.init "WRITE" 0 "users" with hintIndex := some "byName" } : DbAction) =
        { DbAction.init "WRITE" 0 "users" with hintIndex := some "byName" } :=
  ⟨rfl, (setters_update_own_field_only (DbAction.init "WRITE" 0 "users") "byName" "strict"
      aliceDoc (.single (.str "1"))).1
    { DbAction.init "WRITE" 0 "users" with hintIndex := some "byName" } rfl⟩

/-- String append is associative (helper for reasoning about the dispatch
error message). -/
theorem strAppend_assoc (x y z : String) : x ++ y ++ z = x ++ (y ++ z) := by
  rcases x with ⟨xd⟩
  rcases y with ⟨yd⟩
  rcases z with ⟨zd⟩
  exact String.ext (List.append_assoc xd yd zd)

/-- The joined list of valid action tags, as `join(", ")` produces it. -/
theorem DB_ACTIONS_joined :
    String.intercalate ", " DB_ACTIONS_values = "READ, WRITE, UPDATE, DELETE, CLEAR" := by
  decide

/-- Claim C3: with a missing precondition — payload unset for WRITE or
UPDATE, delete key unset for DELETE, missing or invalid key path for UPDATE,
payload lacking the key-path field — the operation's synchronous phase throws
(`isThrew`), i.e. ends in the `threw` outcome, which by construction carries
no native request: the failure happens before any request is issued to the
engine.  (In the `.ts` source, WRITE does open its transaction before the
payload check, but still issues no request on it.) -/
theorem preconditions_fail_before_request (a : DbAction) (st : ObjectStore) :
    (a.updateDoc = none →
      (executeWriteSync a st).isThrew = true ∧ (executeUpdateSync a st).isThrew = true)
    ∧ (a.deleteDoc = none → (executeDeleteSync a st).isThrew = true)
    ∧ (st.keyPath = none → (executeUpdateSync a st).isThrew = true)
    ∧ (∀ ss, st.keyPath = some (.composite ss) → (executeUpdateSync a st).isThrew = true)
    ∧ (∀ kp doc, st.keyPath = some (.single kp) → a.updateDoc = some doc →
        hasKeyField doc kp = false → (executeUpdateSync a st).isThrew = true) := by
  refine ⟨?_, ?_, ?_, ?_, ?_⟩
  · intro h
    exact ⟨by simp [executeWriteSync, h, SyncOutcome.isThrew],
      by simp [executeUpdateSync, h, SyncOutcome.isThrew]⟩
  · intro h
    simp [executeDeleteSync, h, SyncOutcome.isThrew]
  · intro h
    cases hud : a.updateDoc with
    | none => simp [executeUpdateSync, hud, SyncOutcome.isThrew]
    | some doc => simp [executeUpdateSync, hud, h, SyncOutcome.isThrew]
  · intro ss h
    cases hud : a.updateDoc with
    | none => simp [executeUpdateSync, hud, SyncOutcome.isThrew]
    | some doc => simp [executeUpdateSync, hud, h, SyncOutcome.isThrew]
  · intro kp doc hkp hud hf
    simp [executeUpdateSync, hud, hkp, hf, SyncOutcome.isThrew]

/-- Witness for C3 at concrete inputs: a WRITE with no payload, a DELETE with
no delete key, and an UPDATE whose payload lacks the `"id"` key field all
throw without issuing a request. -/
theorem preconditions_fail_before_request_witness :
    (executeWriteSync (DbAction.init "WRITE" 0 "users") usersStore).isThrew = true
    ∧ (executeDeleteSync (DbAction.init "DELETE" 0 "users") usersStore).isThrew = true
    ∧ (executeUpdateSync
        (setDocumentData (DbAction.init "UPDATE" 0 "users") ⟨[("name", .str "Bob")]⟩)
        usersStore).isThrew = true :=
  ⟨((preconditions_fail_before_request (DbAction.init "WRITE" 0 "users") usersStore).1 rfl).1,
    (preconditions_fail_before_request (DbAction.init "DELETE" 0 "users") usersStore).2.1 rfl,
    (preconditions_fail_before_request
        (setDocumentData (DbAction.init "UPDATE" 0 "users") ⟨[("name", .str "Bob")]⟩)
        usersStore).2.2.2.2 "id" ⟨[("name", .str "Bob")]⟩ rfl rfl (by decide)⟩

/-- Claim C4: `executeUpdate` throws exactly when the payload is unset, the
store's key path is `null`, the key path is composite, or the payload lacks
the key-path field (or has it `undefined`); otherwise it issues the single
native request `put(updateDoc)` — the configured document unchanged, so a
full-document upsert with no merge — on the primary store (never an index),
inside one read-write transaction.  The `issued` outcome carries exactly one
request, so no pre-read `get` is issued either. -/
theorem update_fails_iff (a : DbAction) (st : ObjectStore) :
    ((executeUpdateSync a st).isThrew = true ↔
      (a.updateDoc = none ∨ st.keyPath = none ∨
        (∃ ss, st.keyPath = some (.composite ss)) ∨
        (∃ kp doc, st.keyPath = some (.single kp) ∧ a.updateDoc = some doc ∧
          hasKeyField doc kp = false)))
    ∧ (∀ doc kp, a.updateDoc = some doc → st.keyPath = some (.single kp) →
        hasKeyField doc kp = true →
        executeUpdateSync a st =
          .issued ⟨[a.storeName], "readwrite", a.durability⟩ Source.store (.put doc)) := by
  constructor
  · cases hud : a.updateDoc with
    | none => simp [executeUpdateSync, hud, SyncOutcome.isThrew]
    | some doc =>
      cases hkp : st.keyPath with
      | none => simp [executeUpdateSync, hud, hkp, SyncOutcome.isThrew]
      | some sk =>
        cases sk with
        | composite ss => simp [executeUpdateSync, hud, hkp, SyncOutcome.isThrew]
        | single kp =>
          by_cases hf : hasKeyField doc kp = true
          · simp [executeUpdateSync, hud, hkp, hf, SyncOutcome.isThrew]
          · simp [executeUpdateSync, hud, hkp, hf, SyncOutcome.isThrew]
  · intro doc kp hud hkp hf
    have hrs := resolveStoreOrIndex_writeFamily a st "readwrite"
    simp [executeUpdateSync, hud, hkp, hf, hrs]

/-- Witness for C4 at a concrete input: an UPDATE configured with
`{ id: "1", name: "Alice" }` on the `users` store issues exactly
`put` of that document on the primary store. -/
theorem update_fails_iff_witness :
    executeUpdateSync (setDocumentData (DbAction.init "UPDATE" 0 "users") aliceDoc) usersStore =
      .issued ⟨["users"], "readwrite", "relaxed"⟩ Source.store (.put aliceDoc) :=
  (update_fails_iff (setDocumentData (DbAction.init "UPDATE" 0 "users") aliceDoc)
      usersStore).2 aliceDoc "id" rfl rfl (by decide)

/-- Claim C8: for an action tag outside the five recognized kinds, `execute`
throws the dispatch error with zero transactions opened (so before any
transaction, let alone request), and the message both names the invalid value
and enumerates the valid kinds. -/
theorem execute_unrecognized (a : DbAction) (st : ObjectStore)
    (h : ¬ a.action ∈ DB_ACTIONS_values) :
    executeSync a st = .threw 0 (.error (unrecognizedActionMsg a.action))
    ∧ (∃ pre post, unrecognizedActionMsg a.action = pre ++ a.action ++ post)
    ∧ (∃ pre, unrecognizedActionMsg a.action =
        pre ++ "READ, WRITE, UPDATE, DELETE, CLEAR") := by
  simp only [DB_ACTIONS_values, List.mem_cons, List.not_mem_nil, or_false, not_or] at h
  obtain ⟨h1, h2, h3, h4, h5⟩ := h
  refine ⟨by simp [executeSync, h1, h2, h3, h4, h5], ?_, ?_⟩
  · refine ⟨"Unrecognized database action: ",
      ". Must be one of: " ++ String.intercalate ", " DB_ACTIONS_values, ?_⟩
    unfold unrecognizedActionMsg
    exact strAppend_assoc _ _ _
  · refine ⟨"Unrecognized database action: " ++ a.action ++ ". Must be one of: ", ?_⟩
    unfold unrecognizedActionMsg
    rw [DB_ACTIONS_joined]

/-- Witness for C8 at a concrete input: the unrecognized tag `"FOO"` makes
`execute` throw the dispatch error with no transaction opened. -/
theorem execute_unrecognized_witness :
    executeSync (DbAction.init "FOO" 0 "users") usersStore =
      .threw 0 (.error (unrecognizedActionMsg "FOO")) :=
  (execute_unrecognized (DbAction.init "FOO" 0 "users") usersStore (by decide)).1

/-- Helper: none of the four write-family handlers can issue a request on an
index source. -/
theorem writeFamily_sources_store (a : DbAction) (st : ObjectStore) (t : TxnSpec)
    (s : Source) (r : NativeReq) :
    (executeWriteSync a st = .issued t s r → s = Source.store)
    ∧ (executeUpdateSync a st = .issued t s r → s = Source.store)
    ∧ (executeDeleteSync a st = .issued t s r → s = Source.store)
    ∧ (executeClearSync a st = .issued t s r → s = Source.store) := by
  have hrs := resolveStoreOrIndex_writeFamily a st "readwrite"
  refine ⟨?_, ?_, ?_, ?_⟩
  · intro h
    cases hud : a.updateDoc with
    | none => simp [executeWriteSync, hud] at h
    | some doc =>
      simp [executeWriteSync, hud, hrs] at h
      exact h.2.1.symm
  · intro h
    cases hud : a.updateDoc with
    | none => simp [executeUpdateSync, hud] at h
    | some doc =>
      cases hkp : st.keyPath with
      | none => simp [executeUpdateSync, hud, hkp] at h
      | some sk =>
        cases sk with
        | composite ss => simp [executeUpdateSync, hud, hkp] at h
        | single kp =>
          by_cases hf : hasKeyField doc kp = true
          · simp [executeUpdateSync, hud, hkp, hf, hrs] at h
            exact h.2.1.symm
          · simp [executeUpdateSync, hud, hkp, hf] at h
  · intro h
    cases hdd : a.deleteDoc with
    | none => simp [executeDeleteSync, hdd] at h
    | some k =>
      simp [executeDeleteSync, hdd, hrs] at h
      exact h.2.1.symm
  · intro h
    simp [executeClearSync, hrs] at h
    exact h.2.1.symm

/-- Helper: with no hint, the READ handler issues `getAll` on the primary
store inside a readonly transaction. -/
theorem executeReadSync_eq_none (a : DbAction) (st : ObjectStore)
    (hh : a.hintIndex = none) :
    executeReadSync a st =
      .issued ⟨[a.storeName], "readonly", a.durability⟩ Source.store .getAll := by
  simp [executeReadSync, resolveStoreOrIndex, hh]

/-- Helper: with a hint set, the READ handler issues `getAll` on the hinted
index when the hint is truthy and exists on the store, else on the primary
store. -/
theorem executeReadSync_eq_some (a : DbAction) (st : ObjectStore) (h : String)
    (hh : a.hintIndex = some h) :
    executeReadSync a st =
      .issued ⟨[a.storeName], "readonly", a.durability⟩
        (if h.length != 0 && st.indexNames.contains h then Source.idx h
         else Source.store) .getAll := by
  simp only [executeReadSync, resolveStoreOrIndex, hh, Bool.true_and]
  by_cases hc : (h.length != 0 && st.indexNames.contains h) = true
  · rw [if_pos hc, if_pos hc]
  · rw [if_neg hc, if_neg hc]

/-- Claim C5: an execution reads through a secondary index exactly when the
action is READ, an index hint is set (truthy), and that index exists on the
store; a READ whose hint names a nonexistent index issues `getAll` on the
primary store (it does not fail); and WRITE, UPDATE, DELETE and CLEAR only
ever issue their request on the primary store, whatever the hint. -/
theorem index_usage (a : DbAction) (st : ObjectStore) :
    ((∃ t r i, executeSync a st = .issued t (.idx i) r) ↔
      (a.action = "READ" ∧ ∃ h, a.hintIndex = some h ∧ h.length ≠ 0 ∧
        st.indexNames.contains h = true))
    ∧ (a.action = "READ" → ∀ hn, a.hintIndex = some hn →
        st.indexNames.contains hn = false →
        executeSync a st =
          .issued ⟨[a.storeName], "readonly", a.durability⟩ Source.store .getAll)
    ∧ ((a.action = "WRITE" ∨ a.action = "UPDATE" ∨ a.action = "DELETE" ∨
          a.action = "CLEAR") →
        ∀ t s r, executeSync a st = .issued t s r → s = Source.store) := by
  refine ⟨⟨?_, ?_⟩, ?_, ?_⟩
  · rintro ⟨t, r, i, heq⟩
    by_cases hR : a.action = "READ"
    · refine ⟨hR, ?_⟩
      rw [executeSync, if_pos hR] at heq
      cases hh : a.hintIndex with
      | none =>
        rw [executeReadSync_eq_none a st hh] at heq
        simp at heq
      | some h =>
        rw [executeReadSync_eq_some a st h hh] at heq
        by_cases hc : (h.length != 0 && st.indexNames.contains h) = true
        · rw [Bool.and_eq_true] at hc
          exact ⟨h, rfl, bne_iff_ne.mp hc.1, hc.2⟩
        · rw [if_neg hc] at heq
          simp at heq
    · exfalso
      rw [executeSync, if_neg hR] at heq
      by_cases hW : a.action = "WRITE"
      · rw [if_pos hW] at heq
        have := (writeFamily_sources_store a st t (.idx i) r).1 heq
        simp at this
      · rw [if_neg hW] at heq
        by_cases hU : a.action = "UPDATE"
        · rw [if_pos hU] at heq
          have := (writeFamily_sources_store a st t (.idx i) r).2.1 heq
          simp at this
        · rw [if_neg hU] at heq
          by_cases hD : a.action = "DELETE"
          · rw [if_pos hD] at heq
            have := (writeFamily_sources_store a st t (.idx i) r).2.2.1 heq
            simp at this
          · rw [if_neg hD] at heq
            by_cases hC : a.action = "CLEAR"
            · rw [if_pos hC] at heq
              have := (writeFamily_sources_store a st t (.idx i) r).2.2.2 heq
              simp at this
            · rw [if_neg hC] at heq
              simp at heq
  · rintro ⟨hR, h, hh, hlen, hcont⟩
    refine ⟨⟨[a.storeName], "readonly", a.durability⟩, .getAll, h, ?_⟩
    rw [executeSync, if_pos hR, executeReadSync_eq_some a st h hh]
    have hc : (h.length != 0 && st.indexNames.contains h) = true := by
      rw [Bool.and_eq_true]
      exact ⟨bne_iff_ne.mpr hlen, hcont⟩
    rw [if_pos hc]
  · intro hR hn hh hcont
    rw [executeSync, if_pos hR, executeReadSync_eq_some a st hn hh]
    have hc : ¬(hn.length != 0 && st.indexNames.contains hn) = true := by
      intro hcc
      rw [hcont, Bool.and_false] at hcc
      exact Bool.false_ne_true hcc
    rw [if_neg hc]
  · rintro (h | h | h | h) t s r heq
    · rw [executeSync, if_neg (by simp [h]), if_pos h] at heq
      exact (writeFamily_sources_store a st t s r).1 heq
    · rw [executeSync, if_neg (by simp [h]), if_neg (by simp [h]), if_pos h] at heq
      exact (writeFamily_sources_store a st t s r).2.1 heq
    · rw [executeSync, if_neg (by simp [h]), if_neg (by simp [h]),
        if_neg (by simp [h]), if_pos h] at heq
      exact (writeFamily_sources_store a st t s r).2.2.1 heq
    · rw [executeSync, if_neg (by simp [h]), if_neg (by simp [h]),
        if_neg (by simp [h]), if_neg (by simp [h]), if_pos h] at heq
      exact (writeFamily_sources_store a st t s r).2.2.2 heq

/-- Witness for C5 at a concrete input: a READ whose hint names the
nonexistent index `"missing"` falls back to a primary-store `getAll`. -/
theorem index_usage_witness :
    executeSync { DbAction.init "READ" 0 "users" with hintIndex := some "missing" }
        usersStore =
      .issued ⟨["users"], "readonly", "relaxed"⟩ Source.store .getAll :=
  (index_usage { DbAction.init "READ" 0 "users" with hintIndex := some "missing" }
      usersStore).2.1 rfl "missing" rfl (by decide)

/-- Claim C6: a successful WRITE of a payload carrying a valid key into an
empty collection, followed by a READ of that collection, yields the
one-element result set holding exactly the written record.  The engine's
`add`/`getAll` are spec-modelled (`ObjectStore.addRecord`,
`ObjectStore.getAllDocs`); the wrapper phases are embedded from the source. -/
theorem write_then_read (dbRef : Nat) (nm kp : String) (doc : Doc) (k : IDBKey)
    (idxs : List String)
    (hk : ((doc.fields.find? (fun p => p.1 = kp)).map (fun p => p.2)).bind Prim.toKey =
      some k) :
    ∃ st', runWrite (setDocumentData (DbAction.init "WRITE" dbRef nm) doc)
        ⟨some (.single kp), idxs, []⟩ = .ok st'
      ∧ runRead (DbAction.init "READ" dbRef nm) st' = .ok [doc] := by
  refine ⟨⟨some (.single kp), idxs, [(k, doc)]⟩, ?_, ?_⟩
  · simp [runWrite, executeWriteSync, setDocumentData, DbAction.init,
      resolveStoreOrIndex, ObjectStore.addRecord, hk]
  · simp [runRead, executeReadSync, DbAction.init, resolveStoreOrIndex,
      ObjectStore.getAllDocs]

/-- Witness for C6 at a concrete input: writing `{ id: "1", name: "Alice" }`
into the empty `users` store and reading it back yields exactly that one
record. -/
theorem write_then_read_witness :
    ∃ st', runWrite (setDocumentData (DbAction.init "WRITE" 0 "users") aliceDoc)
        ⟨some (.single "id"), [], []⟩ = .ok st'
      ∧ runRead (DbAction.init "READ" 0 "users") st' = .ok [aliceDoc] :=
  write_then_read 0 "users" "id" aliceDoc (.str "1") [] (by decide)

/-- Helper: the READ handler's durability-stripped outcome ignores the
configured durability. -/
theorem executeReadSync_stripDur (a : DbAction) (st : ObjectStore) (d : String) :
    (executeReadSync { a with durability := d } st).stripDur =
      (executeReadSync a st).stripDur := by
  obtain ⟨act, dbr, sn, hi, du, ud, dd⟩ := a
  rcases hi with _ | hname <;>
    simp only [executeReadSync, resolveStoreOrIndex, SyncOutcome.stripDur] <;>
    split_ifs <;> rfl

/-- Helper: the WRITE handler's durability-stripped outcome ignores the
configured durability. -/
theorem executeWriteSync_stripDur (a : DbAction) (st : ObjectStore) (d : String) :
    (executeWriteSync { a with durability := d } st).stripDur =
      (executeWriteSync a st).stripDur := by
  obtain ⟨act, dbr, sn, hi, du, ud, dd⟩ := a
  rcases hi with _ | hname <;> rcases ud with _ | doc <;>
    simp only [executeWriteSync, resolveStoreOrIndex, SyncOutcome.stripDur] <;>
    split_ifs <;> rfl

/-- Helper: the UPDATE handler's durability-stripped outcome ignores the
configured durability. -/
theorem executeUpdateSync_stripDur (a : DbAction) (st : ObjectStore) (d : String) :
    (executeUpdateSync { a with durability := d } st).stripDur =
      (executeUpdateSync a st).stripDur := by
  obtain ⟨act, dbr, sn, hi, du, ud, dd⟩ := a
  obtain ⟨kpath, idxs, recs⟩ := st
  rcases hi with _ | hname <;> rcases ud with _ | doc <;>
    rcases kpath with _ | kp <;> (try rcases kp with kps | kpl) <;>
    simp only [executeUpdateSync, resolveStoreOrIndex, SyncOutcome.stripDur] <;>
    split_ifs <;> rfl

/-- Helper: the DELETE handler's durability-stripped outcome ignores the
configured durability. -/
theorem executeDeleteSync_stripDur (a : DbAction) (st : ObjectStore) (d : String) :
    (executeDeleteSync { a with durability := d } st).stripDur =
      (executeDeleteSync a st).stripDur := by
  obtain ⟨act, dbr, sn, hi, du, ud, dd⟩ := a
  rcases hi with _ | hname <;> rcases dd with _ | dk <;>
    simp only [executeDeleteSync, resolveStoreOrIndex, SyncOutcome.stripDur] <;>
    split_ifs <;> rfl

/-- Helper: the CLEAR handler's durability-stripped outcome ignores the
configured durability. -/
theorem executeClearSync_stripDur (a : DbAction) (st : ObjectStore) (d : String) :
    (executeClearSync { a with durability := d } st).stripDur =
      (executeClearSync a st).stripDur := by
  obtain ⟨act, dbr, sn, hi, du, ud, dd⟩ := a
  rcases hi with _ | hname <;>
    simp only [executeClearSync, resolveStoreOrIndex, SyncOutcome.stripDur] <;>
    split_ifs <;> rfl

/-- Helper: erasing the transaction's durability option makes the synchronous
outcome independent of the configured durability. -/
theorem executeSync_stripDur (a : DbAction) (st : ObjectStore) (d : String) :
    (executeSync { a with durability := d } st).stripDur =
      (executeSync a st).stripDur := by
  by_cases h1 : a.action = "READ"
  · simp only [executeSync, h1, eq_self_iff_true, if_true]
    exact executeReadSync_stripDur a st d
  by_cases h2 : a.action = "WRITE"
  · simp only [executeSync, h1, h2, eq_self_iff_true, if_true, if_false]
    exact executeWriteSync_stripDur a st d
  by_cases h3 : a.action = "UPDATE"
  · simp only [executeSync, h1, h2, h3, eq_self_iff_true, if_true, if_false]
    exact executeUpdateSync_stripDur a st d
  by_cases h4 : a.action = "DELETE"
  · simp only [executeSync, h1, h2, h3, h4, eq_self_iff_true, if_true, if_false]
    exact executeDeleteSync_stripDur a st d
  by_cases h5 : a.action = "CLEAR"
  · simp only [executeSync, h1, h2, h3, h4, h5, eq_self_iff_true, if_true, if_false]
    exact executeClearSync_stripDur a st d
  · simp only [executeSync, h1, h2, h3, h4, h5, if_false]

/-- Helper: the WRITE pipeline's effect on the store ignores durability. -/
theorem runWrite_durability (a : DbAction) (st : ObjectStore) (d : String) :
    runWrite { a with durability := d } st = runWrite a st := by
  obtain ⟨act, dbr, sn, hi, du, ud, dd⟩ := a
  rcases hi with _ | hname <;> rcases ud with _ | doc <;>
    simp [runWrite, executeWriteSync, resolveStoreOrIndex]

/-- Helper: the READ pipeline's result ignores durability. -/
theorem runRead_durability (a : DbAction) (st : ObjectStore) (d : String) :
    runRead { a with durability := d } st = runRead a st := by
  obtain ⟨act, dbr, sn, hi, du, ud, dd⟩ := a
  rcases hi with _ | hname <;>
    simp [runRead, executeReadSync, resolveStoreOrIndex] <;>
    split_ifs <;> rfl

/-- Claim C9: durability defaults to `"relaxed"`; the configured value is
passed verbatim as the transaction-opening option; and two executions of the
same action on the same state differing only in durability issue the same
native request on the same source inside the same transaction scope and mode
(only the durability option differs), with the same resulting store contents
(WRITE pipeline) and the same result set (READ pipeline). -/
theorem durability_noninterference (a : DbAction) (st : ObjectStore) (d₁ d₂ : String) :
    (DbAction.init a.action a.databaseInstance a.storeName).durability = "relaxed"
    ∧ (∀ mode allowIdx,
        (resolveStoreOrIndex { a with durability := d₁ } st mode allowIdx).1.durability = d₁)
    ∧ (executeSync { a with durability := d₁ } st).stripDur =
        (executeSync { a with durability := d₂ } st).stripDur
    ∧ runWrite { a with durability := d₁ } st = runWrite { a with durability := d₂ } st
    ∧ runRead { a with durability := d₁ } st = runRead { a with durability := d₂ } st := by
  refine ⟨rfl, ?_, ?_, ?_, ?_⟩
  · intro mode allowIdx
    rcases hh : a.hintIndex with _ | hn <;>
      simp [resolveStoreOrIndex, hh] <;> split_ifs <;> rfl
  · exact (executeSync_stripDur a st d₁).trans (executeSync_stripDur a st d₂).symm
  · exact (runWrite_durability a st d₁).trans (runWrite_durability a st d₂).symm
  · exact (runRead_durability a st d₁).trans (runRead_durability a st d₂).symm

end IndexdbHelper
